import Mathlib

/-!
Verification of the Versz browser client (rflyhigh/Versz).

The development shallowly embeds the client-side router
(`src/unnamed/part_003`, `class Router`), the view functions
(`src/home.js`, `src/editor.js`, `src/unnamed/part_005`), the route
registrations of `App.initializeRouter` (`src/app.js`), the session-token
lifecycle (`src/auth.js`, `class Auth`) and two utility functions of
`VerszApp` (`src/app.js`): `escapeHtml` and `validateAuthState`.

Modelling conventions:
- a JS string is a Lean `String`; a value that may be `null`/`undefined`
  is an `Option`;
- the route table (a plain JS object used as a dictionary) is an
  association list with JS property semantics: assignment overwrites in
  place, lookup is exact string equality on the key;
- a view function (a zero-argument producer of a markup string) is
  `Unit → String`;
- the mutable browser world touched by the router (route table,
  `window.location.pathname`, the history stack, the `#app` container's
  `innerHTML`) is a `RouterState` record; a JS exception (calling
  `undefined` as a function) is `Option.none`;
- network requests issued by an operation are recorded in a `net` trace
  field; the router's code contains no `fetch`, so its operations leave
  the trace unchanged;
- `localStorage` is an association list from key strings to value
  strings.
-/

namespace Versz

/-- A view-producing function: takes no arguments, returns a markup
string (`function HomeView() { return \x60...\x60 }` and friends). -/
def ViewFn : Type := Unit → String

/-- The route table of `Router`: `this.routes = {}` is a JS object used
as a string-keyed dictionary; we embed it as an association list. -/
abbrev RouteTable : Type := List (String × ViewFn)

/-- JS object property assignment `this.routes[path] = component`
(`Router.addRoute`): an existing key is overwritten in place, a new key
is appended. -/
def addRoute (routes : RouteTable) (path : String) (component : ViewFn) :
    RouteTable :=
  match routes with
  | [] => [(path, component)]
  | (k, v) :: rest =>
      if k = path then (path, component) :: rest
      else (k, v) :: addRoute rest path component

/-- JS object property read `this.routes[path]`: exact string match on
the key, `undefined` (here `none`) when the key is absent. -/
def lookupRoute (routes : RouteTable) (path : String) : Option ViewFn :=
  match routes with
  | [] => none
  | (k, v) :: rest => if k = path then some v else lookupRoute rest path

/-- `const Component = this.routes[path] || this.routes['/404']`
(`Router.handleRoute`, line 24): the primary exact-match lookup with the
literal `'/404'` key as fallback. -/
def resolveRoute (routes : RouteTable) (path : String) : Option ViewFn :=
  match lookupRoute routes path with
  | some v => some v
  | none => lookupRoute routes "/404"

/-- The browser-visible state the router reads and writes. -/
structure RouterState where
  /-- `this.routes` -/
  routes : RouteTable
  /-- `window.location.pathname` -/
  path : String
  /-- the history stack; the current entry is the head -/
  history : List String
  /-- `document.getElementById('app').innerHTML` -/
  container : String
  /-- trace of network requests issued so far (the router issues none) -/
  net : List String

/-- `Router.handleRoute` (lines 22-26): resolve the current pathname
through the route table with the `'/404'` fallback, call the resolved
component, and replace the container's `innerHTML` with the returned
markup.  When both lookups miss, `Component` is `undefined` and
`Component()` throws: `none`.

The source function is `async` and the render line is
`... .innerHTML = await Component()`: it suspends at the `await` before
the write.  This definition is the big-step result of the whole run; the
suspension structure is modelled by `handleRouteSync` /
`handleRouteResume` below, and `handleRoute` is proven to be exactly
their composition. -/
def handleRoute (s : RouterState) : Option RouterState :=
  match resolveRoute s.routes s.path with
  | some component => some { s with container := component () }
  | none => none

/-- The synchronous prefix of the `async` `Router.handleRoute`: an async
JS function runs synchronously up to its first `await`, so this phase
reads the pathname, resolves the component, calls it (the registered
views return their markup string without suspending), and then suspends
at `await Component()` (line 25) — returning control to the caller with
the computed markup and the `innerHTML` write still pending.  The
browser state is returned as the caller observes it at the suspension
point: the container has not been written.  `none` when `Component` is
`undefined` and the call throws. -/
def handleRouteSync (s : RouterState) : Option (RouterState × String) :=
  match resolveRoute s.routes s.path with
  | some component => some (s, component ())
  | none => none

/-- The continuation of the suspended `handleRoute`, resumed as a later
microtask: the pending `innerHTML` assignment of the markup computed
before the `await`. -/
def handleRouteResume (s : RouterState) (markup : String) : RouterState :=
  { s with container := markup }

/-- `Router.navigate(url)` (lines 17-20): `history.pushState(null, null,
url)` pushes a history entry and makes `url` the current pathname, then
`this.handleRoute()` runs. -/
def navigate (s : RouterState) (url : String) : Option RouterState :=
  handleRoute { s with history := url :: s.history, path := url }

/-- A browser back-navigation: the browser pops the current history
entry, restores the previous one as the location, and fires `popstate`;
the constructor's listener (line 4) then runs `this.handleRoute()`. -/
def backNav (s : RouterState) : Option RouterState :=
  match s.history with
  | _ :: prev :: rest =>
      handleRoute { s with history := prev :: rest, path := prev }
  | _ => none

/-- `Router.addRoute(path, component)` (lines 13-15) as a transition on
the router state: only `this.routes` is written. -/
def addRouteS (s : RouterState) (path : String) (component : ViewFn) :
    RouterState :=
  { s with routes := addRoute s.routes path component }

/-- `HomeView` (`src/home.js`): returns the login/register hero markup. -/
def HomeView : ViewFn := fun _ =>
  "\n        <div class=\"hero\">\n            <h1>Welcome to Versz</h1>\n            <p>Create, style, and share your lyrics with the world.</p>\n            <div class=\"auth-forms\">\n                <div class=\"auth-form\">\n                    <h2>Login</h2>\n                    <form id=\"loginForm\">\n                        <input type=\"text\" class=\"input\" placeholder=\"Username\" required>\n                        <input type=\"password\" class=\"input\" placeholder=\"Password\" required>\n                        <button type=\"submit\" class=\"btn\">Login</button>\n                    </form>\n                </div>\n                <div class=\"auth-form\">\n                    <h2>Register</h2>\n                    <form id=\"registerForm\">\n                        <input type=\"text\" class=\"input\" placeholder=\"Username\" required>\n                        <input type=\"text\" class=\"input\" placeholder=\"Name\" required>\n                        <input type=\"password\" class=\"input\" placeholder=\"Password\" required>\n                        <button type=\"submit\" class=\"btn\">Register</button>\n                    </form>\n                </div>\n            </div>\n        </div>\n    "

/-- `DashboardView` (`src/unnamed/part_005`): returns the lyric-list
dashboard markup. -/
def DashboardView : ViewFn := fun _ =>
  "\n        <div class=\"dashboard\">\n            <div class=\"dashboard-header\">\n                <h1>Your Lyrics</h1>\n                <button class=\"btn\" id=\"createNew\">Create New</button>\n            </div>\n            <div class=\"lyrics-grid\" id=\"lyricsGrid\"></div>\n        </div>\n    "

/-- `EditorView` (`src/editor.js`): returns the lyric-editor markup. -/
def EditorView : ViewFn := fun _ =>
  "\n        <div class=\"container\">\n            <div class=\"toolbar\">\n                <select id=\"fontSize\">\n                    <option value=\"14\">14px</option>\n                    <option value=\"16\">16px</option>\n                    <option value=\"18\" selected>18px</option>\n                    <option value=\"20\">20px</option>\n                    <option value=\"24\">24px</option>\n                </select>\n                <select id=\"textColor\">\n                    <option value=\"inherit\">Default</option>\n                    <option value=\"#FF6B6B\">Red</option>\n                    <option value=\"#4ECDC4\">Cyan</option>\n                    <option value=\"#FFE66D\">Yellow</option>\n                    <option value=\"#95E1D3\">Mint</option>\n                </select>\n                <select id=\"textFormat\">\n                    <option value=\"none\">Normal</option>\n                    <option value=\"uppercase\">Uppercase</option>\n                    <option value=\"lowercase\">Lowercase</option>\n                    <option value=\"capitalize\">Capitalize</option>\n                </select>\n                <button onclick=\"toggleTheme()\">Theme</button>\n                <button id=\"shareButton\">Share</button>\n            </div>\n            \n            <div class=\"header\">\n                <input type=\"text\" class=\"title\" placeholder=\"Title\">\n                <input type=\"text\" class=\"subtitle\" placeholder=\"Artist\">\n            </div>\n            \n            <div class=\"lyrics-container\" \n                 contenteditable=\"true\" \n                 placeholder=\"Enter your lyrics here...\"\n                 id=\"lyrics\"></div>\n\n            <button class=\"clean-mode-toggle\" onclick=\"toggleCleanMode()\">\n                Toggle Clean Mode\n            </button>\n        </div>\n    "

/-- Modelled from the spec: `SharedView` is registered by
`App.initializeRouter` (`src/app.js`, line 1332) but its definition is
not among the repository's source files; the spec describes the
shared-content view as a synchronous function returning a markup string
for one logical screen, so we model it as a constant markup producer. -/
def SharedView : ViewFn := fun _ =>
  "\n        <div class=\"shared\"></div>\n    "

/-- The route table built by `App.initializeRouter` (`src/app.js`,
lines 1327-1332): five `addRoute` calls on the initially empty table. -/
def appRoutes : RouteTable :=
  addRoute (addRoute (addRoute (addRoute (addRoute []
    "/" HomeView)
    "/dashboard" DashboardView)
    "/editor" EditorView)
    "/editor/:id" EditorView)
    "/:extension" SharedView

/-! ## `localStorage` and the `Auth` class (`src/auth.js`) -/

/-- `localStorage`: a string-keyed, string-valued store. -/
abbrev Storage : Type := List (String × String)

/-- `localStorage.getItem(key)`: the stored value, or `null` (`none`)
when the key is absent. -/
def getItem (st : Storage) (key : String) : Option String :=
  match st with
  | [] => none
  | (k, v) :: rest => if k = key then some v else getItem rest key

/-- `localStorage.setItem(key, value)`: overwrite in place or append. -/
def setItem (st : Storage) (key value : String) : Storage :=
  match st with
  | [] => [(key, value)]
  | (k, v) :: rest =>
      if k = key then (key, value) :: rest
      else (k, v) :: setItem rest key value

/-- `localStorage.removeItem(key)`. -/
def removeItem (st : Storage) (key : String) : Storage :=
  match st with
  | [] => []
  | (k, v) :: rest =>
      if k = key then removeItem rest key else (k, v) :: removeItem rest key

/-- The payload of a successful `api.login` call: the backend response
object whose `access_token` field `Auth.login` stores. -/
structure LoginData where
  access_token : String

/-- `Auth.isAuthenticated()`: `!!localStorage.getItem('token')` — JS
truthiness, so `null` and the empty string are both `false`. -/
def isAuthenticated (st : Storage) : Bool :=
  match getItem st "token" with
  | none => false
  | some s => s ≠ ""

/-- `Auth.login(username, password)`: awaits `api.login`; on success
stores `data.access_token` under `'token'` and returns `true`; on a
thrown error logs and returns `false`, touching no storage.  The
backend call's outcome is passed in as an `Except` value. -/
def login (st : Storage) (apiResult : Except String LoginData) :
    Storage × Bool :=
  match apiResult with
  | .ok data => (setItem st "token" data.access_token, true)
  | .error _ => (st, false)

/-- The storage effect of `Auth.logout()`:
`localStorage.removeItem('token')` (the method then also calls
`router.navigate('/')`, which touches no storage). -/
def logout (st : Storage) : Storage :=
  removeItem st "token"

/-! ## `VerszApp` utilities (`src/app.js`) -/

/-- `VerszApp.validateAuthState(state)` (lines 385-388):
`return state === storedState && state !== null` with
`storedState = localStorage.getItem('spotify_auth_state')`; the `state`
argument is a URL query parameter, hence a string or `null`. -/
def validateAuthState (st : Storage) (state : Option String) : Bool :=
  let storedState := getItem st "spotify_auth_state"
  state == storedState && state != none

/-- One pass of `String.prototype.replace` with a global single-character
pattern: every occurrence of `c` becomes the replacement string `r`. -/
def replaceAllChar (c : Char) (r : List Char) : List Char → List Char
  | [] => []
  | x :: rest =>
      (if x = c then r else [x]) ++ replaceAllChar c r rest

/-- `VerszApp.escapeHtml` (lines 1190-1200): falsy input
(`null`, `undefined` or the empty string, modelled as `none` /
`some ""`) yields `''`; otherwise the five chained global replaces run,
ampersand first.  String-typed input makes `.toString()` the
identity. -/
def escapeHtml (input : Option String) : String :=
  match input with
  | none => ""
  | some s =>
      if s = "" then ""
      else
        String.mk
          (replaceAllChar (Char.ofNat 39) "&#039;".toList
            (replaceAllChar (Char.ofNat 34) "&quot;".toList
              (replaceAllChar (Char.ofNat 62) "&gt;".toList
                (replaceAllChar (Char.ofNat 60) "&lt;".toList
                  (replaceAllChar (Char.ofNat 38) "&amp;".toList
                    s.toList)))))

/-- Spec-side description of escaping (for the refinement claim about
`escapeHtml`): each of the five special characters is mapped to its HTML
entity, every other character is kept. -/
def escChar (c : Char) : List Char :=
  if c = Char.ofNat 38 then "&amp;".toList
  else if c = Char.ofNat 60 then "&lt;".toList
  else if c = Char.ofNat 62 then "&gt;".toList
  else if c = Char.ofNat 34 then "&quot;".toList
  else if c = Char.ofNat 39 then "&#039;".toList
  else [c]

/-- Spec-side description of `escapeHtml` on a (non-null) string: the
character-wise entity substitution applied once across the input. -/
def escapeHtmlSpec (s : String) : String :=
  String.mk (s.toList.flatMap escChar)

/-! ## Helper lemmas -/

/-- Looking up a key just written by `addRoute` yields the new value. -/
lemma lookupRoute_addRoute_self (r : RouteTable) (p : String) (v : ViewFn) :
    lookupRoute (addRoute r p v) p = some v := by
  induction r with
  | nil => simp [addRoute, lookupRoute]
  | cons e rest ih =>
      obtain ⟨k, w⟩ := e
      by_cases h : k = p
      · simp [addRoute, h, lookupRoute]
      · simp [addRoute, h, lookupRoute, ih]

/-- A successful exact lookup comes from an entry whose key is exactly
the looked-up path. -/
lemma lookupRoute_mem (r : RouteTable) (p : String) (v : ViewFn)
    (h : lookupRoute r p = some v) : (p, v) ∈ r := by
  induction r with
  | nil => simp [lookupRoute] at h
  | cons e rest ih =>
      obtain ⟨k, w⟩ := e
      by_cases hk : k = p
      · subst hk
        simp [lookupRoute] at h
        subst h
        exact List.mem_cons_self _ _
      · simp [lookupRoute, hk] at h
        exact List.mem_cons_of_mem _ (ih h)

/-- `handleRoute` when the current path is registered. -/
lemma handleRoute_of_lookup (s : RouterState) (V : ViewFn)
    (h : lookupRoute s.routes s.path = some V) :
    handleRoute s = some { s with container := V () } := by
  simp [handleRoute, resolveRoute, h]

/-- `navigate` when the target path is registered: push the entry, move
the location, render the registered view's markup. -/
lemma navigate_of_lookup (s : RouterState) (P : String) (V : ViewFn)
    (h : lookupRoute s.routes P = some V) :
    navigate s P =
      some { s with history := P :: s.history, path := P,
                    container := V () } := by
  simp [navigate, handleRoute, resolveRoute, h]

/-- A concrete initial browser state: the app's route table, location at
the root path, one history entry, an empty container, no network
traffic. -/
def state0 : RouterState :=
  { routes := appRoutes, path := "/", history := ["/"], container := "",
    net := [] }

/-! ## Claims -/

/-- Claim C1: for every path `P` registered in the route table with view
function `V`, `navigate P` pushes a history entry, makes `P` the current
location and leaves the root container's `innerHTML` exactly the markup
string returned by `V`. -/
theorem navigate_renders_registered_view (s : RouterState) (P : String)
    (V : ViewFn) (h : lookupRoute s.routes P = some V) :
    navigate s P =
      some { s with history := P :: s.history, path := P,
                    container := V () } :=
  navigate_of_lookup s P V h

/-- Witness for C1: navigating to the registered root path from the
app's startup state renders `HomeView`'s markup. -/
theorem navigate_renders_registered_view_witness :
    navigate state0 "/" =
      some { state0 with history := "/" :: state0.history, path := "/",
                         container := HomeView () } :=
  navigate_renders_registered_view state0 "/" HomeView rfl

/-- Counterexample to claim C2 as stated: the app's startup route table
(`App.initializeRouter`) registers no `'/404'` component, so at the
unregistered path `/nosuch` `handleRoute` does not render a fallback
view — `Component` is `undefined` and the call faults. -/
theorem handleRoute_no404_faults :
    lookupRoute appRoutes "/nosuch" = none ∧
    lookupRoute appRoutes "/404" = none ∧
    handleRoute { state0 with path := "/nosuch" } = none :=
  ⟨rfl, rfl, rfl⟩

/-- Claim C2 (amended): for a path that is not a key of the route
table, `handleRoute` renders the component registered under `'/404'`
provided such a component is registered; the app's own startup table
registers none, and there `handleRoute` faults instead. -/
theorem handleRoute_falls_back_to_404 (s : RouterState) (V : ViewFn)
    (h1 : lookupRoute s.routes s.path = none)
    (h2 : lookupRoute s.routes "/404" = some V) :
    handleRoute s = some { s with container := V () } := by
  simp [handleRoute, resolveRoute, h1, h2]

/-- Witness for the amended C2: with a `'/404'` registration added to
the app table, the unregistered path `/nosuch` renders that view. -/
theorem handleRoute_falls_back_to_404_witness :
    handleRoute { routes := addRoute appRoutes "/404" HomeView,
                  path := "/nosuch", history := ["/nosuch"],
                  container := "", net := [] } =
      some { routes := addRoute appRoutes "/404" HomeView,
             path := "/nosuch", history := ["/nosuch"],
             container := HomeView (), net := [] } :=
  handleRoute_falls_back_to_404
    { routes := addRoute appRoutes "/404" HomeView, path := "/nosuch",
      history := ["/nosuch"], container := "", net := [] }
    HomeView rfl rfl

/-- Claim C3: registering twice under the same path overwrites
(last-write-wins): afterwards the table maps `P` to `V2`, and
`handleRoute` at `P` renders `V2`'s output. -/
theorem addRoute_last_write_wins (r : RouteTable) (P : String)
    (V1 V2 : ViewFn) (s : RouterState)
    (hr : s.routes = addRoute (addRoute r P V1) P V2) (hp : s.path = P) :
    lookupRoute s.routes P = some V2 ∧
    handleRoute s = some { s with container := V2 () } := by
  have hl : lookupRoute s.routes P = some V2 := by
    rw [hr]; exact lookupRoute_addRoute_self _ P V2
  refine ⟨hl, handleRoute_of_lookup s V2 ?_⟩
  rw [hp]; exact hl

/-- Witness for C3: registering `HomeView` then `DashboardView` under
`/x` resolves and renders `DashboardView`. -/
theorem addRoute_last_write_wins_witness :
    lookupRoute (RouterState.routes
      { routes := addRoute (addRoute [] "/x" HomeView) "/x" DashboardView,
        path := "/x", history := [], container := "", net := [] }) "/x" =
      some DashboardView ∧
    handleRoute
      { routes := addRoute (addRoute [] "/x" HomeView) "/x" DashboardView,
        path := "/x", history := [], container := "", net := [] } =
      some { routes := addRoute (addRoute [] "/x" HomeView) "/x" DashboardView,
             path := "/x", history := [], container := DashboardView (),
             net := [] } :=
  addRoute_last_write_wins [] "/x" HomeView DashboardView
    { routes := addRoute (addRoute [] "/x" HomeView) "/x" DashboardView,
      path := "/x", history := [], container := "", net := [] }
    rfl rfl

/-- Counterexample to claim C4 as stated: selection is not "exact match
only" — with a `'/404'` component registered, `handleRoute` selects and
renders the view registered under the key `'/404'` while the current
path is `/editor/5`, which differs from `'/404'` character for
character. -/
theorem route_fallback_breaks_exact_match :
    lookupRoute (addRoute appRoutes "/404" DashboardView) "/404" =
      some DashboardView ∧
    resolveRoute (addRoute appRoutes "/404" DashboardView) "/editor/5" =
      some DashboardView ∧
    "/editor/5" ≠ "/404" :=
  ⟨rfl, rfl, by decide⟩

/-- Claim C4 (amended): route matching is exact string equality, except
for the hard-coded `'/404'` fallback: a selected view always comes from
an entry whose key is exactly the current path or exactly `'/404'`; a
parameter-style key such as `/editor/:id` is stored literally — it is
looked up verbatim, and the path `/editor/5` matches no key of the
app's table (no pattern matching happens). -/
theorem route_lookup_exact_with_fallback :
    (∀ (r : RouteTable) (P : String) (V : ViewFn),
        resolveRoute r P = some V → (P, V) ∈ r ∨ ("/404", V) ∈ r) ∧
    lookupRoute appRoutes "/editor/:id" = some EditorView ∧
    resolveRoute appRoutes "/editor/5" = none := by
  refine ⟨?_, rfl, rfl⟩
  intro r P V h
  unfold resolveRoute at h
  cases hp : lookupRoute r P with
  | some w =>
      rw [hp] at h
      cases h
      exact Or.inl (lookupRoute_mem r P V hp)
  | none =>
      rw [hp] at h
      exact Or.inr (lookupRoute_mem r "/404" V h)

/-- Witness for C4: the selected view at the registered root path comes
from an entry keyed by that exact path (or the `'/404'` key). -/
theorem route_lookup_exact_with_fallback_witness :
    ("/", HomeView) ∈ appRoutes ∨ ("/404", HomeView) ∈ appRoutes :=
  route_lookup_exact_with_fallback.1 appRoutes "/" HomeView rfl

/-- Claim C5: `navigate P1` then `navigate P2` followed by a simulated
back-navigation (`popstate` with the location restored to `P1`)
re-renders the view previously rendered for `P1` into the root
container. -/
theorem back_navigation_restores_view (s : RouterState) (P1 P2 : String)
    (V1 V2 : ViewFn) (h1 : lookupRoute s.routes P1 = some V1)
    (h2 : lookupRoute s.routes P2 = some V2) :
    ∃ s1 s2 s3, navigate s P1 = some s1 ∧ navigate s1 P2 = some s2 ∧
      backNav s2 = some s3 ∧ s3.container = s1.container ∧
      s1.container = V1 () := by
  refine ⟨_, _, _, navigate_of_lookup s P1 V1 h1,
    navigate_of_lookup _ P2 V2 h2, ?_, rfl, rfl⟩
  show backNav { s with history := P2 :: P1 :: s.history, path := P2,
                        container := V2 () } = _
  show handleRoute { s with history := P1 :: s.history, path := P1,
                            container := V2 () } = _
  rw [handleRoute_of_lookup _ V1 h1]

/-- Witness for C5: navigate to `/`, then `/dashboard`, then go back —
`HomeView`'s markup is in the container again. -/
theorem back_navigation_restores_view_witness :
    ∃ s1 s2 s3, navigate state0 "/" = some s1 ∧
      navigate s1 "/dashboard" = some s2 ∧ backNav s2 = some s3 ∧
      s3.container = s1.container ∧ s1.container = HomeView () :=
  back_navigation_restores_view state0 "/" "/dashboard" HomeView
    DashboardView rfl rfl

/-- Counterexample to claim C6 as stated: `handleRoute` does suspend
between lookup and DOM replacement.  The source function is `async` and
its render line is `innerHTML = await Component()`: at the concrete
startup state the synchronous phase completes the lookup and computes
`HomeView`'s markup, yet at that suspension point the container still
holds its old contents — the write only happens when the suspended
function is resumed, producing `handleRoute`'s final state. -/
theorem handleRoute_await_suspends :
    handleRouteSync state0 = some (state0, HomeView ()) ∧
    state0.container ≠ HomeView () ∧
    handleRoute state0 = some { state0 with container := HomeView () } :=
  ⟨rfl, by decide, rfl⟩

/-- Claim C6 (amended): the registered view functions are synchronous
markup producers — at the suspension point the markup is already the
resolved view's full output — but `handleRoute` itself is `async` and
suspends at `await Component()` between lookup and DOM replacement: the
synchronous phase performs no container write, and the whole run is
exactly the synchronous phase followed by the resumed `innerHTML`
assignment. -/
theorem handleRoute_suspends_then_renders :
    (∀ s : RouterState,
        handleRoute s =
          (handleRouteSync s).map fun p => handleRouteResume p.1 p.2) ∧
    (∀ (s inter : RouterState) (markup : String),
        handleRouteSync s = some (inter, markup) →
        inter.container = s.container ∧
        ∃ V : ViewFn, resolveRoute s.routes s.path = some V ∧
          markup = V () ∧
          handleRouteResume inter markup =
            { inter with container := markup }) := by
  constructor
  · intro s
    unfold handleRoute handleRouteSync
    cases resolveRoute s.routes s.path with
    | some component => rfl
    | none => rfl
  · intro s inter markup h
    unfold handleRouteSync at h
    cases hr : resolveRoute s.routes s.path with
    | some V =>
        rw [hr] at h
        cases h
        exact ⟨rfl, V, rfl, rfl, rfl⟩
    | none => rw [hr] at h; cases h

/-- Witness for the amended C6: a concrete suspension at the startup
state — no write in the synchronous phase, the markup is `HomeView`'s
full output, the resume performs the assignment. -/
theorem handleRoute_suspends_then_renders_witness :
    state0.container = state0.container ∧
    ∃ V : ViewFn, resolveRoute state0.routes state0.path = some V ∧
      HomeView () = V () ∧
      handleRouteResume state0 (HomeView ()) =
        { state0 with container := HomeView () } :=
  handleRoute_suspends_then_renders.2 state0 state0 (HomeView ()) rfl

/-- Claim C7: `navigate` and `handleRoute` leave the route table
unchanged and issue no network request; `addRoute` is the only router
operation that writes the route table, and it touches nothing else
(location, history, container, network trace are preserved). -/
theorem router_frame_no_network :
    (∀ (s : RouterState) (url : String) (s' : RouterState),
        navigate s url = some s' → s'.routes = s.routes ∧ s'.net = s.net) ∧
    (∀ s s' : RouterState,
        handleRoute s = some s' → s'.routes = s.routes ∧ s'.net = s.net) ∧
    (∀ (s : RouterState) (p : String) (v : ViewFn),
        (addRouteS s p v).routes = addRoute s.routes p v ∧
        (addRouteS s p v).path = s.path ∧
        (addRouteS s p v).history = s.history ∧
        (addRouteS s p v).container = s.container ∧
        (addRouteS s p v).net = s.net) := by
  have hh : ∀ s s' : RouterState,
      handleRoute s = some s' → s'.routes = s.routes ∧ s'.net = s.net := by
    intro s s' h
    unfold handleRoute at h
    cases hr : resolveRoute s.routes s.path with
    | some V => rw [hr] at h; cases h; exact ⟨rfl, rfl⟩
    | none => rw [hr] at h; cases h
  refine ⟨?_, hh, ?_⟩
  · intro s url s' h
    unfold navigate at h
    exact hh { s with history := url :: s.history, path := url } s' h
  · intro s p v
    exact ⟨rfl, rfl, rfl, rfl, rfl⟩

/-- Witness for C7: a concrete `navigate` run keeps the app's route
table and network trace intact. -/
theorem router_frame_no_network_witness :
    (RouterState.routes
        { state0 with history := "/" :: state0.history, path := "/",
                      container := HomeView () }) = state0.routes ∧
    (RouterState.net
        { state0 with history := "/" :: state0.history, path := "/",
                      container := HomeView () }) = state0.net :=
  router_frame_no_network.1 state0 "/"
    { state0 with history := "/" :: state0.history, path := "/",
                  container := HomeView () }
    (navigate_of_lookup state0 "/" HomeView rfl)

/-! ## Storage lemmas and the auth / utility claims -/

/-- Reading a key just written by `setItem` yields the new value. -/
lemma getItem_setItem_self (st : Storage) (k v : String) :
    getItem (setItem st k v) k = some v := by
  induction st with
  | nil => simp [setItem, getItem]
  | cons e rest ih =>
      obtain ⟨k', v'⟩ := e
      by_cases h : k' = k
      · simp [setItem, h, getItem]
      · simp [setItem, h, getItem, ih]

/-- Reading a key just removed by `removeItem` yields `null`. -/
lemma getItem_removeItem_self (st : Storage) (k : String) :
    getItem (removeItem st k) k = none := by
  induction st with
  | nil => simp [removeItem, getItem]
  | cons e rest ih =>
      obtain ⟨k', v'⟩ := e
      by_cases h : k' = k
      · simp [removeItem, h, ih]
      · simp [removeItem, h, getItem, ih]

/-- Counterexample to claim C8 as stated: a `token` entry can be present
in storage (here the empty string, which JS truthiness rejects) while
`Auth.isAuthenticated()` returns `false` — presence of the key alone is
not equivalent to being authenticated. -/
theorem token_present_but_not_authenticated :
    getItem [("token", "")] "token" = some "" ∧
    isAuthenticated [("token", "")] = false :=
  ⟨rfl, rfl⟩

/-- Claim C8 (amended): the session-token lifecycle — `Auth.login`
writes the backend's `access_token` under `'token'` and returns `true`
exactly when the backend call succeeds, and returns `false` leaving
storage unchanged when it fails; `Auth.logout` deletes the token;
`Auth.isAuthenticated` returns `true` exactly when a non-empty token is
present. -/
theorem auth_token_lifecycle :
    (∀ (st : Storage) (d : LoginData),
        login st (Except.ok d) = (setItem st "token" d.access_token, true) ∧
        getItem (login st (Except.ok d)).1 "token" = some d.access_token) ∧
    (∀ (st : Storage) (e : String), login st (Except.error e) = (st, false)) ∧
    (∀ st : Storage, getItem (logout st) "token" = none) ∧
    (∀ st : Storage,
        isAuthenticated st = true ↔
          ∃ tok, getItem st "token" = some tok ∧ tok ≠ "") := by
  refine ⟨?_, fun st e => rfl, ?_, ?_⟩
  · intro st d
    exact ⟨rfl, getItem_setItem_self st "token" d.access_token⟩
  · intro st
    exact getItem_removeItem_self st "token"
  · intro st
    unfold isAuthenticated
    cases h : getItem st "token" with
    | none => simp
    | some tok => simp [decide_eq_true_iff]

/-- Witness for C8 (amended): a successful login on empty storage stores
the token and reports success. -/
theorem auth_token_lifecycle_witness :
    login [] (Except.ok ⟨"tok123"⟩) =
      (setItem [] "token" (LoginData.access_token ⟨"tok123"⟩), true) ∧
    getItem (login [] (Except.ok ⟨"tok123"⟩)).1 "token" = some "tok123" :=
  (auth_token_lifecycle.1 [] ⟨"tok123"⟩)

/-- The five chained global replaces of `escapeHtml`, ampersand first
(innermost), equal one character-wise entity substitution over the
input: later passes never rewrite the entity text inserted by earlier
ones. -/
lemma replaceAllChar_append (c : Char) (r a b : List Char) :
    replaceAllChar c r (a ++ b) =
      replaceAllChar c r a ++ replaceAllChar c r b := by
  induction a with
  | nil => rfl
  | cons x t ih => simp [replaceAllChar, ih, List.append_assoc]

/-- The escape chain computes the character-wise substitution. -/
lemma escape_chain_eq_flatMap (l : List Char) :
    replaceAllChar (Char.ofNat 39) "&#039;".toList
      (replaceAllChar (Char.ofNat 34) "&quot;".toList
        (replaceAllChar (Char.ofNat 62) "&gt;".toList
          (replaceAllChar (Char.ofNat 60) "&lt;".toList
            (replaceAllChar (Char.ofNat 38) "&amp;".toList l)))) =
      l.flatMap escChar := by
  induction l with
  | nil => rfl
  | cons x t ih =>
      have hstep : replaceAllChar (Char.ofNat 38) "&amp;".toList (x :: t) =
          (if x = Char.ofNat 38 then "&amp;".toList else [x]) ++
            replaceAllChar (Char.ofNat 38) "&amp;".toList t := rfl
      rw [hstep, replaceAllChar_append, replaceAllChar_append,
        replaceAllChar_append, replaceAllChar_append, ih, List.flatMap_cons]
      congr 1
      by_cases h38 : x = Char.ofNat 38
      · subst h38; decide
      · by_cases h60 : x = Char.ofNat 60
        · subst h60; decide
        · by_cases h62 : x = Char.ofNat 62
          · subst h62; decide
          · by_cases h34 : x = Char.ofNat 34
            · subst h34; decide
            · by_cases h39 : x = Char.ofNat 39
              · subst h39; decide
              · simp [replaceAllChar, escChar, h38, h60, h62, h34, h39]

/-- Claim C9: `escapeHtml` is total; `null`/`undefined` and the empty
string give `''`; on every other string each occurrence of the five
special characters is replaced by its HTML entity (ampersand first, so
inserted entities are not re-escaped), character-wise and
nothing else. -/
theorem escapeHtml_charwise :
    escapeHtml none = "" ∧ escapeHtml (some "") = "" ∧
    ∀ s : String, escapeHtml (some s) = escapeHtmlSpec s := by
  refine ⟨rfl, rfl, ?_⟩
  intro s
  by_cases h : s = ""
  · subst h; rfl
  · have hs : escapeHtml (some s) =
        String.mk
          (replaceAllChar (Char.ofNat 39) "&#039;".toList
            (replaceAllChar (Char.ofNat 34) "&quot;".toList
              (replaceAllChar (Char.ofNat 62) "&gt;".toList
                (replaceAllChar (Char.ofNat 60) "&lt;".toList
                  (replaceAllChar (Char.ofNat 38) "&amp;".toList
                    s.toList))))) := by
      simp only [escapeHtml, if_neg h]
    rw [hs, escape_chain_eq_flatMap]
    rfl

/-- Claim C10: `validateAuthState(state)` accepts exactly a non-null
`state` equal to the stored `'spotify_auth_state'` value; when `state`
is absent (`null`) it always rejects, in particular when the stored
value is also absent. -/
theorem validateAuthState_exact :
    (∀ (st : Storage) (state : Option String),
        validateAuthState st state = true ↔
          state ≠ none ∧ state = getItem st "spotify_auth_state") ∧
    (∀ st : Storage, validateAuthState st none = false) := by
  constructor
  · intro st state
    unfold validateAuthState
    simp [Bool.and_eq_true, beq_iff_eq, bne_iff_ne, and_comm]
  · intro st
    unfold validateAuthState
    simp

end Versz
